import Mathlib

/-!
Shallow embedding of `ChatViewSet.send_message` from
`src/apps/assistant/views.py` of the testhub_platform repository, together
with the stored rows the view reads and writes (`AssistantSession`,
`ChatMessage`, `AIModelConfig`, `DifyConfig`).  The network is an oracle:
the outcome of the single outbound `requests.post` call is a function of
the request the view builds.
-/

/-- A persisted assistant session (`AssistantSession` row): owned by one
user, addressed by its `session_id`, optionally holding a provider-assigned
`conversation_id` (`none` models SQL NULL, `some ""` an empty string). -/
structure AssistantSession where
  session_id : String
  user : Nat
  conversation_id : Option String
deriving Repr, DecidableEq

/-- A persisted chat message (`ChatMessage` row).  `created_at` is the
creation timestamp; the store hands out strictly increasing values. -/
structure ChatMessage where
  id : Nat
  session_id : String
  role : String
  content : String
  conversation_id : Option String
  message_id : Option String
  created_at : Nat
deriving Repr, DecidableEq

/-- A direct-model provider configuration (`AIModelConfig` row). -/
structure AIModelConfig where
  id : Nat
  name : String
  api_key : String
  base_url : String
  model_name : String
  temperature : Int
  max_tokens : Nat
  is_active : Bool
deriving Repr, DecidableEq

/-- A knowledge-base provider configuration (`DifyConfig` row). -/
structure DifyConfig where
  id : Nat
  api_key : String
  api_url : String
  is_active : Bool
deriving Repr, DecidableEq

/-- The relational state the view touches.  `next_pk` is the store's
counter: it provides fresh primary keys and (monotone) creation
timestamps for `ChatMessage.objects.create`. -/
structure Db where
  sessions : List AssistantSession
  chat_messages : List ChatMessage
  ai_configs : List AIModelConfig
  dify_configs : List DifyConfig
  next_pk : Nat
deriving Repr, DecidableEq

/-- Python truthiness of a nullable string field (`if session.conversation_id:`):
`None` and the empty string are falsy. -/
def truthyOptStr : Option String → Bool
  | none => false
  | some s => s != ""

/-- `AssistantSession.objects.get(session_id=..., user=request.user)`:
`none` models `AssistantSession.DoesNotExist`. -/
def getSessionFor (db : Db) (sid : String) (user : Nat) : Option AssistantSession :=
  db.sessions.find? (fun s => s.session_id == sid && s.user == user)

/-- An explicit config reference as it arrives in the request body and is
handed to an ORM `get`: a well-formed primary-key value, or a malformed one
(a value whose coercion to the key type raises `ValueError`). -/
inductive RefVal where
  | pk (id : Nat)
  | malformed
deriving Repr, DecidableEq

/-- Lines 86-90: `AIModelConfig.objects.get(id=model_id, is_active=True)`
inside `try/except (DoesNotExist, ValueError): pass` — a malformed id, a
missing row or an inactive row all leave `ai_config` as `None`. -/
def lookupActiveAIConfig (db : Db) : RefVal → Option AIModelConfig
  | .pk i => db.ai_configs.find? (fun c => c.id == i && c.is_active)
  | .malformed => none

/-- Lines 93-97: `DifyConfig.objects.get(id=dify_config_id)` inside
`try/except (DoesNotExist, ValueError): pass` — the active flag is not
consulted. -/
def lookupDifyConfig (db : Db) : RefVal → Option DifyConfig
  | .pk i => db.dify_configs.find? (fun c => c.id == i)
  | .malformed => none

/-- Modelled from the spec: `DifyConfig.get_active_config` is defined on the
model class in `apps/assistant/models.py`, which is not among the reviewed
source files.  The spec describes it as "the registry's currently-active
Dify config, if one exists", with at most one config active at a time; we
take the first config whose active flag is set. -/
def DifyConfig.get_active_config (db : Db) : Option DifyConfig :=
  db.dify_configs.find? (fun c => c.is_active)

/-- Lines 104-108: `AIModelConfig.objects.filter(is_active=True).first()`. -/
def firstActiveAIConfig (db : Db) : Option AIModelConfig :=
  db.ai_configs.find? (fun c => c.is_active)

/-- The provider configuration a dispatch ends up using. -/
inductive Provider where
  | model (cfg : AIModelConfig)
  | dify (cfg : DifyConfig)
deriving Repr, DecidableEq

/-- Lines 81-108 plus the `if ai_config: ... elif dify_config: ... else:`
branch heads (lines 111/206/282): compute `ai_config` and `dify_config`
through the four fallback steps and pick `ai_config` first.  A `none`
argument models a request whose `model_id` / `dify_config_id` field is
absent or falsy. -/
def resolve_provider (db : Db) (model_id dify_config_id : Option RefVal) :
    Option Provider :=
  let ai1 : Option AIModelConfig :=
    match model_id with
    | some r => lookupActiveAIConfig db r
    | none => none
  let dify1 : Option DifyConfig :=
    if ai1.isNone then
      match dify_config_id with
      | some r => lookupDifyConfig db r
      | none => none
    else none
  let dify2 : Option DifyConfig :=
    if ai1.isNone && dify1.isNone then DifyConfig.get_active_config db else dify1
  let ai2 : Option AIModelConfig :=
    if ai1.isNone && dify2.isNone then firstActiveAIConfig db else ai1
  match ai2 with
  | some c => some (.model c)
  | none =>
    match dify2 with
    | some d => some (.dify d)
    | none => none

/-- `ChatMessage.objects.create(...)`: append a row carrying a fresh
primary key and the next creation timestamp; returns the row and the new
store. -/
def createChatMessage (db : Db) (sid role content : String)
    (conversation_id message_id : Option String) : ChatMessage × Db :=
  let m : ChatMessage :=
    ⟨db.next_pk, sid, role, content, conversation_id, message_id, db.next_pk⟩
  (m, { db with chat_messages := db.chat_messages ++ [m], next_pk := db.next_pk + 1 })

/-- `session.save()`: write the mutated session row back over the stored
row with the same `session_id`. -/
def saveSession (db : Db) (s : AssistantSession) : Db :=
  { db with
    sessions := db.sessions.map (fun t => if t.session_id == s.session_id then s else t) }

/-- `base_url.rstrip('/')`: drop every trailing slash. -/
def rstripSlashes (s : String) : String :=
  ⟨(s.data.reverse.dropWhile (· == '/')).reverse⟩

/-- `s.endswith(t)` over the character lists (kernel-computable). -/
def strEndsWith (s t : String) : Bool := t.data.isSuffixOf s.data

/-- Lines 152-160: normalize the configured base URL into the completion
endpoint URL. -/
def normalizeCompletionUrl (base_url : String) : String :=
  let b := rstripSlashes base_url
  if !(strEndsWith b "/chat/completions") then
    if strEndsWith b "/v1" then b ++ "/chat/completions"
    else b ++ "/v1/chat/completions"
  else b

/-- One entry of the outbound `messages` array. -/
structure RoleContent where
  role : String
  content : String
deriving Repr, DecidableEq

/-- Lines 127-130: the fixed system instruction heading every model-path
context. -/
def systemInstruction : RoleContent :=
  ⟨"system",
   "你是一个专业的软件测试助手(AI评测师)，可以协助用户进行测试用例分析、编写、评审以及回答一般的测试相关问题。"⟩

/-- Lines 121-125: `session.chat_messages.all().order_by('-created_at')`
`.exclude(id=user_message_obj.id)[:10]` followed by `reverse()` — the last
ten prior messages of the session, oldest first. -/
def history_messages (db : Db) (sid : String) (exclude_id : Nat) : List ChatMessage :=
  let desc := (db.chat_messages.filter (fun m => m.session_id == sid)).insertionSort
    (fun a b => b.created_at ≤ a.created_at)
  ((desc.filter (fun m => m.id != exclude_id)).take 10).reverse

/-- Lines 133-138: how one stored history message is forwarded upstream —
`'assistant' if msg.role == 'assistant' else 'user'`, content as stored. -/
def forwardedEntry (m : ChatMessage) : RoleContent :=
  ⟨if m.role == "assistant" then "assistant" else "user", m.content⟩

/-- Lines 127-144: the full assembled context of the model-config path. -/
def model_messages_payload (db : Db) (sid : String) (exclude_id : Nat)
    (message : String) : List RoleContent :=
  systemInstruction :: (history_messages db sid exclude_id).map forwardedEntry
    ++ [⟨"user", message⟩]

/-- The outbound request of the model-config branch (lines 146-171). -/
structure LlmRequest where
  url : String
  bearer : String
  model : String
  messages : List RoleContent
  temperature : Int
  max_tokens : Nat
  stream : Bool
deriving Repr, DecidableEq

/-- Lines 121-171: assemble the outbound request of the model-config
branch over a store in which the user message has already been created. -/
def buildLlmRequest (db : Db) (session : AssistantSession)
    (ai_config : AIModelConfig) (user_message_id : Nat) (message : String) :
    LlmRequest :=
  ⟨normalizeCompletionUrl ai_config.base_url, ai_config.api_key,
   ai_config.model_name,
   model_messages_payload db session.session_id user_message_id message,
   ai_config.temperature, ai_config.max_tokens, false⟩

/-- The outbound request of the Dify branch (lines 215-241). -/
structure DifyRequest where
  url : String
  bearer : String
  query : String
  user : String
  response_mode : String
  conversation_id : Option String
deriving Repr, DecidableEq

/-- Lines 215-241: assemble the outbound request of the Dify branch.  The
`conversation_id` key is attached only when the session's value is truthy. -/
def buildDifyRequest (dify_config : DifyConfig) (session : AssistantSession)
    (message : String) (user : Nat) : DifyRequest :=
  ⟨rstripSlashes dify_config.api_url ++ "/chat-messages", dify_config.api_key,
   message, toString user, "blocking",
   if truthyOptStr session.conversation_id then session.conversation_id else none⟩

/-- JSON body of a 200 reply from the direct-model provider, as the code
reads it: `choices` (`none` when the key is absent, each present entry
reduced to its `message.content` text) and the top-level `id`. -/
structure LlmBody where
  choices : Option (List String)
  id : Option String
deriving Repr, DecidableEq

/-- JSON body of a 200 reply from the Dify provider, as the code reads it
(`none` models an absent key). -/
structure DifyBody where
  answer : Option String
  conversation_id : Option String
  message_id : Option String
deriving Repr, DecidableEq

/-- Outcome of the one outbound `requests.post` call: a 200 with a parsed
body, a non-200 status with its raw text, a `requests.exceptions.Timeout`
(with its `str(e)`), or another `requests.exceptions.RequestException`
(with its `str(e)`). -/
inductive HttpResp (β : Type) where
  | ok (body : β)
  | httpError (code : Nat) (text : String)
  | timeout (msg : String)
  | requestExc (msg : String)
deriving Repr, DecidableEq

/-- Lines 173-193: `choices[0]['message']['content']` when the `choices`
key is present and non-empty, else the empty string. -/
def llmAnswerContent (body : LlmBody) : String :=
  match body.choices with
  | some (c :: _) => c
  | _ => ""

/-- What `send_message` reads from `request.data`, plus the authenticated
user.  A `none` in `session_id` / `message` models a missing or falsy
value (the code tests `if not session_id or not message`); a `none`
reference models a missing or falsy `model_id` / `dify_config_id`. -/
structure Request where
  user : Nat
  session_id : Option String
  message : Option String
  model_id : Option RefVal
  dify_config_id : Option RefVal
deriving Repr, DecidableEq

/-- The payload of a 200 response: the two serialized messages, the
`conversation_id` field of the reply and `used_model`. -/
structure SuccessPayload where
  user_message : ChatMessage
  assistant_message : ChatMessage
  conversation_id : Option String
  used_model : String
deriving Repr, DecidableEq

/-- What the view hands back: a 200 with the success payload, or an HTTP
error status with the `error` string and the optional `detail`. -/
inductive SendResult where
  | success (payload : SuccessPayload)
  | failure (code : Nat) (error : String) (detail : Option String)
deriving Repr, DecidableEq

/-- Lines 111-203: the direct-model branch of `send_message`.  `llm` is the
network oracle for the completion endpoint; the generic
`except Exception` maps every thrown transport error — timeouts included —
to a 500. -/
def modelConfigPath (db : Db) (session : AssistantSession)
    (ai_config : AIModelConfig) (message : String)
    (llm : LlmRequest → HttpResp LlmBody) : SendResult × Db :=
  let created :=
    createChatMessage db session.session_id "user" message session.conversation_id none
  let user_message_obj := created.1
  let db1 := created.2
  match llm (buildLlmRequest db1 session ai_config user_message_obj.id message) with
  | .ok api_data =>
    let created2 :=
      createChatMessage db1 session.session_id "assistant" (llmAnswerContent api_data)
        session.conversation_id api_data.id
    (.success ⟨user_message_obj, created2.1, session.conversation_id,
      ai_config.name⟩, created2.2)
  | .httpError code text =>
    (.failure 500 ("AI Model API错误: " ++ toString code) (some text), db1)
  | .timeout msg =>
    (.failure 500 ("AI请求失败: " ++ msg) none, db1)
  | .requestExc msg =>
    (.failure 500 ("AI请求失败: " ++ msg) none, db1)

/-- Lines 206-279: the Dify branch of `send_message`.  `dify` is the
network oracle for the `chat-messages` endpoint. -/
def difyPath (db : Db) (session : AssistantSession) (dify_config : DifyConfig)
    (message : String) (user : Nat)
    (dify : DifyRequest → HttpResp DifyBody) : SendResult × Db :=
  let created :=
    createChatMessage db session.session_id "user" message session.conversation_id none
  let user_message := created.1
  let db1 := created.2
  match dify (buildDifyRequest dify_config session message user) with
  | .ok data =>
    let db2 :=
      if data.conversation_id.isSome && !(truthyOptStr session.conversation_id) then
        saveSession db1 { session with conversation_id := data.conversation_id }
      else db1
    let created2 :=
      createChatMessage db2 session.session_id "assistant" (data.answer.getD "")
        data.conversation_id data.message_id
    (.success ⟨user_message, created2.1, data.conversation_id,
      "Dify Knowledge Base"⟩, created2.2)
  | .httpError code text =>
    (.failure 500 ("Dify API错误: " ++ toString code) (some text), db1)
  | .timeout _ =>
    (.failure 408 "API请求超时" none, db1)
  | .requestExc msg =>
    (.failure 500 ("API请求失败: " ++ msg) none, db1)

/-- Lines 56-286: the whole `send_message` action.  `llm` / `dify` are the
network oracles of the two possible outbound calls; at most one of them is
consulted per dispatch. -/
def send_message (db : Db) (req : Request)
    (llm : LlmRequest → HttpResp LlmBody)
    (dify : DifyRequest → HttpResp DifyBody) : SendResult × Db :=
  match req.session_id, req.message with
  | some _, none => (.failure 400 "session_id和message都是必填项" none, db)
  | none, _ => (.failure 400 "session_id和message都是必填项" none, db)
  | some session_id, some message =>
    match getSessionFor db session_id req.user with
    | none => (.failure 404 "会话不存在" none, db)
    | some session =>
      match resolve_provider db req.model_id req.dify_config_id with
      | some (.model ai_config) => modelConfigPath db session ai_config message llm
      | some (.dify dify_config) => difyPath db session dify_config message req.user dify
      | none =>
        (.failure 400 "未配置Dify API，也未配置LLM模型，请先在配置中心配置" none, db)

/-- The one outbound request the model-config branch makes: built over the
store with the user message just persisted, excluding exactly that
message's id from the history window. -/
def modelPathRequest (db : Db) (session : AssistantSession)
    (ai_config : AIModelConfig) (message : String) : LlmRequest :=
  let created :=
    createChatMessage db session.session_id "user" message session.conversation_id none
  buildLlmRequest created.2 session ai_config created.1.id message

def c4_store : Db :=
  ⟨[⟨"s1", 1, some ""⟩], [], [], [⟨5, "k", "http://dify", true⟩], 10⟩

def c4_request : Request := ⟨1, some "s1", some "hi", none, none⟩

def c4_llm : LlmRequest → HttpResp LlmBody := fun _ => .requestExc "unused"

def c4_dify : DifyRequest → HttpResp DifyBody :=
  fun _ => .ok ⟨some "a", some "xyz", some "m"⟩

def c8_store : Db :=
  ⟨[⟨"s1", 1, none⟩], [],
   [⟨7, "m1", "key", "https://api.x.com/v1", "gpt", 1, 256, true⟩], [], 0⟩

def c8_session : AssistantSession := ⟨"s1", 1, none⟩

def c8_config : AIModelConfig :=
  ⟨7, "m1", "key", "https://api.x.com/v1", "gpt", 1, 256, true⟩

def c8_llm : LlmRequest → HttpResp LlmBody :=
  fun _ => .ok ⟨some ["hello"], some "id1"⟩

/-- The four-step fallback chain of lines 85-108 written as one
first-match-wins cascade. -/
theorem resolve_provider_spec (db : Db) (mid did : Option RefVal) :
    resolve_provider db mid did =
      match mid.bind (lookupActiveAIConfig db) with
      | some c => some (Provider.model c)
      | none =>
        match did.bind (lookupDifyConfig db) with
        | some d => some (Provider.dify d)
        | none =>
          match DifyConfig.get_active_config db with
          | some d => some (Provider.dify d)
          | none =>
            match firstActiveAIConfig db with
            | some c => some (Provider.model c)
            | none => none := by
  rcases mid with _ | r
  · rcases did with _ | rd
    · rcases hg : DifyConfig.get_active_config db with _ | g
      · rcases hf : firstActiveAIConfig db with _ | f
        · simp [resolve_provider, hg, hf]
        · simp [resolve_provider, hg, hf]
      · simp [resolve_provider, hg]
    · rcases hl : lookupDifyConfig db rd with _ | d
      · rcases hg : DifyConfig.get_active_config db with _ | g
        · rcases hf : firstActiveAIConfig db with _ | f
          · simp [resolve_provider, hl, hg, hf]
          · simp [resolve_provider, hl, hg, hf]
        · simp [resolve_provider, hl, hg]
      · simp [resolve_provider, hl]
  · rcases ha : lookupActiveAIConfig db r with _ | c
    · rcases did with _ | rd
      · rcases hg : DifyConfig.get_active_config db with _ | g
        · rcases hf : firstActiveAIConfig db with _ | f
          · simp [resolve_provider, ha, hg, hf]
          · simp [resolve_provider, ha, hg, hf]
        · simp [resolve_provider, ha, hg]
      · rcases hl : lookupDifyConfig db rd with _ | d
        · rcases hg : DifyConfig.get_active_config db with _ | g
          · rcases hf : firstActiveAIConfig db with _ | f
            · simp [resolve_provider, ha, hl, hg, hf]
            · simp [resolve_provider, ha, hl, hg, hf]
          · simp [resolve_provider, ha, hl, hg]
        · simp [resolve_provider, ha, hl]
    · simp [resolve_provider, ha]

/-- C1: provider resolution order for a send_message request with a valid
session: explicit active model config, else explicit Dify config (any
active flag), else the registry's active Dify config, else the first
active model config; if none resolve, the request fails 400 with the
no-provider-configured error. -/
theorem C1_provider_resolution_order (db : Db) (req : Request)
    (llm : LlmRequest → HttpResp LlmBody) (dify : DifyRequest → HttpResp DifyBody)
    (sid msg : String) (s : AssistantSession) :
    resolve_provider db req.model_id req.dify_config_id =
      (match req.model_id.bind (lookupActiveAIConfig db) with
       | some c => some (Provider.model c)
       | none =>
         match req.dify_config_id.bind (lookupDifyConfig db) with
         | some d => some (Provider.dify d)
         | none =>
           match DifyConfig.get_active_config db with
           | some d => some (Provider.dify d)
           | none =>
             match firstActiveAIConfig db with
             | some c => some (Provider.model c)
             | none => none)
    ∧ (req.session_id = some sid → req.message = some msg →
       getSessionFor db sid req.user = some s →
       resolve_provider db req.model_id req.dify_config_id = none →
       send_message db req llm dify =
         (.failure 400 "未配置Dify API，也未配置LLM模型，请先在配置中心配置" none, db)) := by
  refine ⟨resolve_provider_spec db req.model_id req.dify_config_id, ?_⟩
  intro h1 h2 h3 h4
  simp [send_message, h1, h2, h3, h4]

/-- C2: an explicit reference that does not resolve (missing row, inactive
model config, malformed id) is silently ignored and resolution falls
through; in particular an invalid explicit model-config id combined with a
valid explicit Dify-config id resolves to that Dify config and the
dispatch proceeds on the Dify branch. -/
theorem C2_invalid_reference_silently_ignored (db : Db) (req : Request)
    (llm : LlmRequest → HttpResp LlmBody) (dify : DifyRequest → HttpResp DifyBody)
    (sid msg : String) (s : AssistantSession) (d : DifyConfig) (i : Nat) :
    lookupActiveAIConfig db RefVal.malformed = none
    ∧ lookupDifyConfig db RefVal.malformed = none
    ∧ ((∀ c ∈ db.ai_configs, c.id = i → c.is_active = false) →
       lookupActiveAIConfig db (RefVal.pk i) = none)
    ∧ ((∀ c ∈ db.ai_configs, c.id ≠ i) →
       lookupActiveAIConfig db (RefVal.pk i) = none)
    ∧ (req.model_id.bind (lookupActiveAIConfig db) = none →
       req.dify_config_id.bind (lookupDifyConfig db) = some d →
       resolve_provider db req.model_id req.dify_config_id = some (Provider.dify d))
    ∧ (req.session_id = some sid → req.message = some msg →
       getSessionFor db sid req.user = some s →
       req.model_id.bind (lookupActiveAIConfig db) = none →
       req.dify_config_id.bind (lookupDifyConfig db) = some d →
       send_message db req llm dify = difyPath db s d msg req.user dify) := by
  refine ⟨rfl, rfl, ?_, ?_, ?_, ?_⟩
  · intro h
    simp only [lookupActiveAIConfig, List.find?_eq_none]
    intro c hc
    simp only [Bool.and_eq_true, beq_iff_eq, not_and]
    intro hid
    simp [h c hc hid]
  · intro h
    simp only [lookupActiveAIConfig, List.find?_eq_none]
    intro c hc
    simp [h c hc]
  · intro hm hd
    rw [resolve_provider_spec, hm, hd]
  · intro h1 h2 h3 hm hd
    have hr : resolve_provider db req.model_id req.dify_config_id = some (Provider.dify d) := by
      rw [resolve_provider_spec, hm, hd]
    simp [send_message, h1, h2, h3, hr]

/-- C7: the model-path outbound URL is the configured base URL with
trailing slashes stripped, then normalized in exactly three cases: already
ends in the completions path → as-is; ends in the version segment →
append the completions suffix; otherwise → append version segment and
completions suffix.  In particular "https://api.x.com/v1" normalizes to
"https://api.x.com/v1/chat/completions". -/
theorem C7_completion_url_normalization (db : Db) (session : AssistantSession)
    (ai_config : AIModelConfig) (message base_url : String) :
    (strEndsWith (rstripSlashes base_url) "/chat/completions" = true →
       normalizeCompletionUrl base_url = rstripSlashes base_url)
    ∧ (strEndsWith (rstripSlashes base_url) "/chat/completions" = false →
       strEndsWith (rstripSlashes base_url) "/v1" = true →
       normalizeCompletionUrl base_url = rstripSlashes base_url ++ "/chat/completions")
    ∧ (strEndsWith (rstripSlashes base_url) "/chat/completions" = false →
       strEndsWith (rstripSlashes base_url) "/v1" = false →
       normalizeCompletionUrl base_url = rstripSlashes base_url ++ "/v1/chat/completions")
    ∧ (modelPathRequest db session ai_config message).url =
        normalizeCompletionUrl ai_config.base_url
    ∧ normalizeCompletionUrl "https://api.x.com/v1" = "https://api.x.com/v1/chat/completions" := by
  refine ⟨?_, ?_, ?_, rfl, by decide⟩
  · intro h; simp [normalizeCompletionUrl, h]
  · intro h1 h2; simp [normalizeCompletionUrl, h1, h2]
  · intro h1 h2; simp [normalizeCompletionUrl, h1, h2]

/-- C3: on the model-config path the assembled context is exactly one fixed
system instruction, then at most 10 of the session's most-recent prior
messages (oldest to newest, excluding the just-persisted current user
message), then the current user message; the payload never exceeds 12
entries. -/
theorem C3_model_context_assembly (db : Db) (session : AssistantSession)
    (ai_config : AIModelConfig) (sid : String) (ex : Nat) (message : String) :
    model_messages_payload db sid ex message =
      systemInstruction :: (history_messages db sid ex).map forwardedEntry
        ++ [⟨"user", message⟩]
    ∧ (history_messages db sid ex).length ≤ 10
    ∧ (model_messages_payload db sid ex message).length ≤ 12
    ∧ List.Pairwise (fun a b => a.created_at ≤ b.created_at) (history_messages db sid ex)
    ∧ (∀ m ∈ history_messages db sid ex,
         m.id ≠ ex ∧ m.session_id = sid ∧ m ∈ db.chat_messages)
    ∧ (∀ m' ∈ db.chat_messages, m'.session_id = sid → m'.id ≠ ex →
         m' ∉ history_messages db sid ex →
         (history_messages db sid ex).length = 10
         ∧ ∀ m ∈ history_messages db sid ex, m'.created_at ≤ m.created_at)
    ∧ (modelPathRequest db session ai_config message).messages =
        model_messages_payload
          (createChatMessage db session.session_id "user" message session.conversation_id none).2
          session.session_id
          (createChatMessage db session.session_id "user" message session.conversation_id none).1.id
          message := by
  haveI hIT : IsTotal ChatMessage (fun a b => b.created_at ≤ a.created_at) :=
    ⟨fun a b => le_total _ _⟩
  haveI hTr : IsTrans ChatMessage (fun a b => b.created_at ≤ a.created_at) :=
    ⟨fun _ _ _ hab hbc => le_trans hbc hab⟩
  have hsorted : List.Pairwise (fun a b : ChatMessage => b.created_at ≤ a.created_at)
      ((db.chat_messages.filter (fun m => m.session_id == sid)).insertionSort
        (fun a b => b.created_at ≤ a.created_at)) :=
    List.sorted_insertionSort _ _
  have hsortF : List.Pairwise (fun a b : ChatMessage => b.created_at ≤ a.created_at)
      (((db.chat_messages.filter (fun m => m.session_id == sid)).insertionSort
        (fun a b => b.created_at ≤ a.created_at)).filter (fun m => m.id != ex)) :=
    hsorted.filter _
  have hperm := List.perm_insertionSort (fun a b : ChatMessage => b.created_at ≤ a.created_at)
    (db.chat_messages.filter (fun m => m.session_id == sid))
  refine ⟨rfl, ?_, ?_, ?_, ?_, ?_, rfl⟩
  · simp only [history_messages, List.length_reverse, List.length_take]
    omega
  · simp only [model_messages_payload, List.length_cons, List.length_append,
      List.length_map, List.length_cons, List.length_nil, history_messages,
      List.length_reverse, List.length_take]
    omega
  · simp only [history_messages]
    rw [List.pairwise_reverse]
    exact (hsortF.sublist (List.take_sublist _ _))
  · intro m hm
    simp only [history_messages, List.mem_reverse] at hm
    have hmF := List.mem_of_mem_take hm
    have h1 := List.mem_filter.mp hmF
    have hmS := h1.1
    have hid : m.id ≠ ex := by simpa using h1.2
    have hmL : m ∈ db.chat_messages.filter (fun m => m.session_id == sid) :=
      hperm.mem_iff.mp hmS
    have h2 := List.mem_filter.mp hmL
    exact ⟨hid, by simpa using h2.2, h2.1⟩
  · intro m' hm'0 hsid hid hnot
    have hm'L : m' ∈ db.chat_messages.filter (fun m => m.session_id == sid) :=
      List.mem_filter.mpr ⟨hm'0, by simpa using hsid⟩
    have hm'S : m' ∈ (db.chat_messages.filter (fun m => m.session_id == sid)).insertionSort
        (fun a b => b.created_at ≤ a.created_at) := hperm.mem_iff.mpr hm'L
    have hm'F : m' ∈ ((db.chat_messages.filter (fun m => m.session_id == sid)).insertionSort
        (fun a b => b.created_at ≤ a.created_at)).filter (fun m => m.id != ex) :=
      List.mem_filter.mpr ⟨hm'S, by simpa using hid⟩
    have hnotT : m' ∉ (((db.chat_messages.filter (fun m => m.session_id == sid)).insertionSort
        (fun a b => b.created_at ≤ a.created_at)).filter (fun m => m.id != ex)).take 10 := by
      simpa [history_messages, List.mem_reverse] using hnot
    have hm'TD : m' ∈ (((db.chat_messages.filter (fun m => m.session_id == sid)).insertionSort
        (fun a b => b.created_at ≤ a.created_at)).filter (fun m => m.id != ex)).take 10
        ++ (((db.chat_messages.filter (fun m => m.session_id == sid)).insertionSort
        (fun a b => b.created_at ≤ a.created_at)).filter (fun m => m.id != ex)).drop 10 := by
      rw [List.take_append_drop]
      exact hm'F
    have hm'D : m' ∈ (((db.chat_messages.filter (fun m => m.session_id == sid)).insertionSort
        (fun a b => b.created_at ≤ a.created_at)).filter (fun m => m.id != ex)).drop 10 := by
      rcases List.mem_append.mp hm'TD with h | h
      · exact absurd h hnotT
      · exact h
    constructor
    · have hlen : 0 < ((((db.chat_messages.filter (fun m => m.session_id == sid)).insertionSort
          (fun a b => b.created_at ≤ a.created_at)).filter (fun m => m.id != ex)).drop 10).length :=
        List.length_pos.mpr (List.ne_nil_of_mem hm'D)
      simp only [List.length_drop] at hlen
      simp only [history_messages, List.length_reverse, List.length_take]
      omega
    · intro m hm
      simp only [history_messages, List.mem_reverse] at hm
      have hsplit := hsortF
      rw [← List.take_append_drop 10
        (((db.chat_messages.filter (fun m => m.session_id == sid)).insertionSort
          (fun a b => b.created_at ≤ a.created_at)).filter (fun m => m.id != ex))] at hsplit
      have := (List.pairwise_append.mp hsplit).2.2
      exact this m hm m' hm'D

/-- C9: every forwarded historical entry keeps role "assistant" exactly for
stored role "assistant" and is normalized to "user" for every other stored
role, with the stored content forwarded unchanged. -/
theorem C9_history_role_normalization (db : Db) (sid : String) (ex : Nat)
    (message : String) (m : ChatMessage) :
    (model_messages_payload db sid ex message).drop 1 =
      (history_messages db sid ex).map forwardedEntry ++ [⟨"user", message⟩]
    ∧ (forwardedEntry m).role = (if m.role = "assistant" then "assistant" else "user")
    ∧ (forwardedEntry m).content = m.content := by
  refine ⟨rfl, ?_, rfl⟩
  simp [forwardedEntry]

/-- C4 counterexample: a session whose conversation id is the non-null
empty string ("" is falsy in Python) has it overwritten by the
provider-returned id "xyz" on a later 200 reply. -/
theorem C4_counterexample_nonnull_overwritten :
    c4_store.sessions.map AssistantSession.conversation_id = [some ""]
    ∧ (send_message c4_store c4_request c4_llm c4_dify).2.sessions.map
        AssistantSession.conversation_id = [some "xyz"] := by
  decide

/-- C4 (amended): the provider-returned conversation id is written to the
session only when the session's stored value is falsy (null or the empty
string); whenever the stored value is truthy — the situation every reply
after the first binding produces — no session row is touched, even if a
later 200 reply carries a different conversation id. -/
theorem C4_conversation_id_first_reply_binding (db : Db) (session : AssistantSession)
    (dify_config : DifyConfig) (message : String) (user : Nat)
    (dify : DifyRequest → HttpResp DifyBody) (body : DifyBody) (c : String) :
    (truthyOptStr session.conversation_id = true →
       (difyPath db session dify_config message user dify).2.sessions = db.sessions)
    ∧ (dify (buildDifyRequest dify_config session message user) = .ok body →
       truthyOptStr session.conversation_id = false → body.conversation_id = some c →
       (difyPath db session dify_config message user dify).2.sessions =
         db.sessions.map (fun t =>
           if t.session_id == session.session_id then
             { session with conversation_id := some c } else t))
    ∧ (dify (buildDifyRequest dify_config session message user) = .ok body →
       body.conversation_id = none →
       (difyPath db session dify_config message user dify).2.sessions = db.sessions) := by
  refine ⟨?_, ?_, ?_⟩
  · intro h
    cases hD : dify (buildDifyRequest dify_config session message user) with
    | ok data => simp [difyPath, createChatMessage, saveSession, hD, h]
    | httpError code text => simp [difyPath, createChatMessage, hD]
    | timeout m => simp [difyPath, createChatMessage, hD]
    | requestExc m => simp [difyPath, createChatMessage, hD]
  · intro hD h hc
    simp [difyPath, createChatMessage, saveSession, hD, h, hc]
  · intro hD hc
    simp [difyPath, createChatMessage, hD, hc]

/-- C5: both branches persist the user's message (role "user", the request
text) against the session before the outbound call, whatever the oracle
answers; if the call fails (non-200, timeout or exception) the store holds
exactly the old log plus that one user message — no rollback, and no
assistant message — while the dispatch returns an error. -/
theorem C5_failed_send_keeps_user_message (db : Db) (session : AssistantSession)
    (ai_config : AIModelConfig) (dify_config : DifyConfig) (message : String)
    (user : Nat) (llm : LlmRequest → HttpResp LlmBody)
    (dify : DifyRequest → HttpResp DifyBody) :
    (createChatMessage db session.session_id "user" message
      session.conversation_id none).1.role = "user"
    ∧ (createChatMessage db session.session_id "user" message
        session.conversation_id none).1.content = message
    ∧ (∃ tail, (modelConfigPath db session ai_config message llm).2.chat_messages =
        db.chat_messages ++ (createChatMessage db session.session_id "user" message
          session.conversation_id none).1 :: tail)
    ∧ (∃ tail, (difyPath db session dify_config message user dify).2.chat_messages =
        db.chat_messages ++ (createChatMessage db session.session_id "user" message
          session.conversation_id none).1 :: tail)
    ∧ ((∀ b, llm (modelPathRequest db session ai_config message) ≠ HttpResp.ok b) →
       (modelConfigPath db session ai_config message llm).2.chat_messages =
         db.chat_messages ++ [(createChatMessage db session.session_id "user" message
           session.conversation_id none).1]
       ∧ ∃ code e detail, (modelConfigPath db session ai_config message llm).1 =
           SendResult.failure code e detail)
    ∧ ((∀ b, dify (buildDifyRequest dify_config session message user) ≠ HttpResp.ok b) →
       (difyPath db session dify_config message user dify).2.chat_messages =
         db.chat_messages ++ [(createChatMessage db session.session_id "user" message
           session.conversation_id none).1]
       ∧ ∃ code e detail, (difyPath db session dify_config message user dify).1 =
           SendResult.failure code e detail) := by
  refine ⟨rfl, rfl, ?_, ?_, ?_, ?_⟩
  · cases hL : llm (modelPathRequest db session ai_config message) with
    | ok body =>
      refine ⟨[(createChatMessage (createChatMessage db session.session_id "user" message
        session.conversation_id none).2 session.session_id "assistant"
        (llmAnswerContent body) session.conversation_id body.id).1], ?_⟩
      simp [modelConfigPath, modelPathRequest, createChatMessage] at hL ⊢
      simp [hL]
    | httpError code text =>
      refine ⟨[], ?_⟩
      simp [modelConfigPath, modelPathRequest, createChatMessage] at hL ⊢
      simp [hL]
    | timeout m =>
      refine ⟨[], ?_⟩
      simp [modelConfigPath, modelPathRequest, createChatMessage] at hL ⊢
      simp [hL]
    | requestExc m =>
      refine ⟨[], ?_⟩
      simp [modelConfigPath, modelPathRequest, createChatMessage] at hL ⊢
      simp [hL]
  · cases hD : dify (buildDifyRequest dify_config session message user) with
    | ok data =>
      refine ⟨[(createChatMessage (if data.conversation_id.isSome
          && !(truthyOptStr session.conversation_id) then
            saveSession (createChatMessage db session.session_id "user" message
              session.conversation_id none).2
              { session with conversation_id := data.conversation_id }
          else (createChatMessage db session.session_id "user" message
            session.conversation_id none).2) session.session_id "assistant"
        (data.answer.getD "") data.conversation_id data.message_id).1], ?_⟩
      simp only [difyPath]
      rw [hD]
      simp only [createChatMessage, saveSession]
      split <;> simp [createChatMessage, saveSession]
    | httpError code text =>
      refine ⟨[], ?_⟩
      simp only [difyPath]
      rw [hD]
      simp [createChatMessage]
    | timeout m =>
      refine ⟨[], ?_⟩
      simp only [difyPath]
      rw [hD]
      simp [createChatMessage]
    | requestExc m =>
      refine ⟨[], ?_⟩
      simp only [difyPath]
      rw [hD]
      simp [createChatMessage]
  · intro hfail
    cases hL : llm (modelPathRequest db session ai_config message) with
    | ok body => exact absurd hL (hfail body)
    | httpError code text =>
      refine ⟨?_, 500, "AI Model API错误: " ++ toString code, some text, ?_⟩
      · simp [modelConfigPath, modelPathRequest, createChatMessage] at hL ⊢
        simp [hL]
      · simp [modelConfigPath, modelPathRequest, createChatMessage] at hL ⊢
        simp [hL]
    | timeout m =>
      refine ⟨?_, 500, "AI请求失败: " ++ m, none, ?_⟩
      · simp [modelConfigPath, modelPathRequest, createChatMessage] at hL ⊢
        simp [hL]
      · simp [modelConfigPath, modelPathRequest, createChatMessage] at hL ⊢
        simp [hL]
    | requestExc m =>
      refine ⟨?_, 500, "AI请求失败: " ++ m, none, ?_⟩
      · simp [modelConfigPath, modelPathRequest, createChatMessage] at hL ⊢
        simp [hL]
      · simp [modelConfigPath, modelPathRequest, createChatMessage] at hL ⊢
        simp [hL]
  · intro hfail
    cases hD : dify (buildDifyRequest dify_config session message user) with
    | ok data => exact absurd hD (hfail data)
    | httpError code text =>
      refine ⟨?_, 500, "Dify API错误: " ++ toString code, some text, ?_⟩
      · simp only [difyPath]
        rw [hD]
        simp [createChatMessage]
      · simp only [difyPath]
        rw [hD]
    | timeout m =>
      refine ⟨?_, 408, "API请求超时", none, ?_⟩
      · simp only [difyPath]
        rw [hD]
        simp [createChatMessage]
      · simp only [difyPath]
        rw [hD]
    | requestExc m =>
      refine ⟨?_, 500, "API请求失败: " ++ m, none, ?_⟩
      · simp only [difyPath]
        rw [hD]
        simp [createChatMessage]
      · simp only [difyPath]
        rw [hD]

/-- C6: the failure-to-status mapping of send_message — missing input →
400 with the store untouched and no provider contacted; session not found
or owned by another user → 404; no provider configured → 400; upstream
non-200 → 500 forwarding the upstream status and raw body; upstream
timeout → 408 on the knowledge-base branch but 500 (generic exception
text) on the model branch; other transport exceptions → 500 with the
exception message. -/
theorem C6_error_status_taxonomy (db : Db) (req : Request)
    (llm : LlmRequest → HttpResp LlmBody) (dify : DifyRequest → HttpResp DifyBody)
    (sid msg text emsg : String) (s : AssistantSession)
    (ai_config : AIModelConfig) (dify_config : DifyConfig) (code : Nat) :
    (req.session_id = none ∨ req.message = none →
       send_message db req llm dify = (.failure 400 "session_id和message都是必填项" none, db))
    ∧ (req.session_id = some sid → req.message = some msg →
       getSessionFor db sid req.user = none →
       send_message db req llm dify = (.failure 404 "会话不存在" none, db))
    ∧ ((∀ t ∈ db.sessions, t.user ≠ req.user) → getSessionFor db sid req.user = none)
    ∧ (req.session_id = some sid → req.message = some msg →
       getSessionFor db sid req.user = some s →
       resolve_provider db req.model_id req.dify_config_id = none →
       send_message db req llm dify =
         (.failure 400 "未配置Dify API，也未配置LLM模型，请先在配置中心配置" none, db))
    ∧ (llm (modelPathRequest db s ai_config msg) = .httpError code text →
       (modelConfigPath db s ai_config msg llm).1 =
         .failure 500 ("AI Model API错误: " ++ toString code) (some text))
    ∧ (dify (buildDifyRequest dify_config s msg req.user) = .httpError code text →
       (difyPath db s dify_config msg req.user dify).1 =
         .failure 500 ("Dify API错误: " ++ toString code) (some text))
    ∧ (dify (buildDifyRequest dify_config s msg req.user) = .timeout emsg →
       (difyPath db s dify_config msg req.user dify).1 = .failure 408 "API请求超时" none)
    ∧ (llm (modelPathRequest db s ai_config msg) = .timeout emsg →
       (modelConfigPath db s ai_config msg llm).1 =
         .failure 500 ("AI请求失败: " ++ emsg) none)
    ∧ (llm (modelPathRequest db s ai_config msg) = .requestExc emsg →
       (modelConfigPath db s ai_config msg llm).1 =
         .failure 500 ("AI请求失败: " ++ emsg) none)
    ∧ (dify (buildDifyRequest dify_config s msg req.user) = .requestExc emsg →
       (difyPath db s dify_config msg req.user dify).1 =
         .failure 500 ("API请求失败: " ++ emsg) none) := by
  refine ⟨?_, ?_, ?_, ?_, ?_, ?_, ?_, ?_, ?_, ?_⟩
  · intro h
    rcases h with h | h
    · rcases hs : req.session_id with _ | v <;> simp [send_message, h, hs]
    · rcases hs : req.session_id with _ | v <;> simp [send_message, h, hs]
  · intro h1 h2 h3
    simp [send_message, h1, h2, h3]
  · intro h
    simp only [getSessionFor, List.find?_eq_none]
    intro t ht
    simp [h t ht]
  · intro h1 h2 h3 h4
    simp [send_message, h1, h2, h3, h4]
  · intro h
    simp [modelConfigPath, modelPathRequest, createChatMessage] at h ⊢
    simp [h]
  · intro h
    simp only [difyPath]
    rw [h]
  · intro h
    simp only [difyPath]
    rw [h]
  · intro h
    simp [modelConfigPath, modelPathRequest, createChatMessage] at h ⊢
    simp [h]
  · intro h
    simp [modelConfigPath, modelPathRequest, createChatMessage] at h ⊢
    simp [h]
  · intro h
    simp only [difyPath]
    rw [h]

/-- C10: the model-config branch never writes the session row: the
sessions table is unchanged, every message it persists carries the
session's pre-existing conversation id, and so does the returned payload;
at the send_message level a dispatch resolving to a model config leaves
the sessions table exactly as it was. -/
theorem C10_model_path_session_frame (db : Db) (req : Request)
    (session : AssistantSession) (ai_config : AIModelConfig) (message sid : String)
    (llm : LlmRequest → HttpResp LlmBody) (dify : DifyRequest → HttpResp DifyBody) :
    (modelConfigPath db session ai_config message llm).2.sessions = db.sessions
    ∧ (∀ m ∈ (modelConfigPath db session ai_config message llm).2.chat_messages,
         m ∉ db.chat_messages → m.conversation_id = session.conversation_id)
    ∧ (∀ p, (modelConfigPath db session ai_config message llm).1 = .success p →
         p.conversation_id = session.conversation_id
         ∧ p.user_message.conversation_id = session.conversation_id
         ∧ p.assistant_message.conversation_id = session.conversation_id)
    ∧ (req.session_id = some sid → req.message = some message →
       getSessionFor db sid req.user = some session →
       resolve_provider db req.model_id req.dify_config_id = some (.model ai_config) →
       (send_message db req llm dify).2.sessions = db.sessions) := by
  refine ⟨?_, ?_, ?_, ?_⟩
  · cases hL : llm (modelPathRequest db session ai_config message) with
    | ok body =>
      simp [modelConfigPath, modelPathRequest, createChatMessage] at hL ⊢
      simp [hL]
    | httpError code text =>
      simp [modelConfigPath, modelPathRequest, createChatMessage] at hL ⊢
      simp [hL]
    | timeout m =>
      simp [modelConfigPath, modelPathRequest, createChatMessage] at hL ⊢
      simp [hL]
    | requestExc m =>
      simp [modelConfigPath, modelPathRequest, createChatMessage] at hL ⊢
      simp [hL]
  · intro m hm hnot
    cases hL : llm (modelPathRequest db session ai_config message) with
    | ok body =>
      simp [modelConfigPath, modelPathRequest, createChatMessage] at hL hm
      rw [hL] at hm
      simp at hm
      rcases hm with hm | hm | hm
      · exact absurd hm hnot
      · rw [hm]
      · rw [hm]
    | httpError code text =>
      simp [modelConfigPath, modelPathRequest, createChatMessage] at hL hm
      rw [hL] at hm
      simp at hm
      rcases hm with hm | hm
      · exact absurd hm hnot
      · rw [hm]
    | timeout mm =>
      simp [modelConfigPath, modelPathRequest, createChatMessage] at hL hm
      rw [hL] at hm
      simp at hm
      rcases hm with hm | hm
      · exact absurd hm hnot
      · rw [hm]
    | requestExc mm =>
      simp [modelConfigPath, modelPathRequest, createChatMessage] at hL hm
      rw [hL] at hm
      simp at hm
      rcases hm with hm | hm
      · exact absurd hm hnot
      · rw [hm]
  · intro p hp
    cases hL : llm (modelPathRequest db session ai_config message) with
    | ok body =>
      simp [modelConfigPath, modelPathRequest, createChatMessage] at hL hp
      rw [hL] at hp
      simp at hp
      rw [← hp]
      exact ⟨rfl, rfl, rfl⟩
    | httpError code text =>
      simp [modelConfigPath, modelPathRequest, createChatMessage] at hL hp
      rw [hL] at hp
      simp at hp
    | timeout mm =>
      simp [modelConfigPath, modelPathRequest, createChatMessage] at hL hp
      rw [hL] at hp
      simp at hp
    | requestExc mm =>
      simp [modelConfigPath, modelPathRequest, createChatMessage] at hL hp
      rw [hL] at hp
      simp at hp
  · intro h1 h2 h3 h4
    have : send_message db req llm dify = modelConfigPath db session ai_config message llm := by
      simp [send_message, h1, h2, h3, h4]
    rw [this]
    cases hL : llm (modelPathRequest db session ai_config message) with
    | ok body =>
      simp [modelConfigPath, modelPathRequest, createChatMessage] at hL ⊢
      simp [hL]
    | httpError code text =>
      simp [modelConfigPath, modelPathRequest, createChatMessage] at hL ⊢
      simp [hL]
    | timeout m =>
      simp [modelConfigPath, modelPathRequest, createChatMessage] at hL ⊢
      simp [hL]
    | requestExc m =>
      simp [modelConfigPath, modelPathRequest, createChatMessage] at hL ⊢
      simp [hL]

/-- C8: on the model-config path an upstream HTTP 200 always succeeds: the
assistant reply is the first completion choice's text — the empty string
when `choices` is absent or empty — and an assistant message with that
content is persisted and returned. -/
theorem C8_llm_success_reply (db : Db) (session : AssistantSession)
    (ai_config : AIModelConfig) (message : String)
    (llm : LlmRequest → HttpResp LlmBody) (body : LlmBody)
    (h : llm (modelPathRequest db session ai_config message) = .ok body) :
    ∃ p : SuccessPayload,
      (modelConfigPath db session ai_config message llm).1 = .success p
      ∧ p.assistant_message.role = "assistant"
      ∧ p.assistant_message.content = llmAnswerContent body
      ∧ (body.choices = none ∨ body.choices = some [] → llmAnswerContent body = "")
      ∧ (∀ c rest, body.choices = some (c :: rest) → llmAnswerContent body = c)
      ∧ p.assistant_message ∈ (modelConfigPath db session ai_config message llm).2.chat_messages
      ∧ p.user_message.content = message
      ∧ p.used_model = ai_config.name := by
  refine ⟨⟨(createChatMessage db session.session_id "user" message
      session.conversation_id none).1,
    (createChatMessage (createChatMessage db session.session_id "user" message
      session.conversation_id none).2 session.session_id "assistant" (llmAnswerContent body)
      session.conversation_id body.id).1,
    session.conversation_id, ai_config.name⟩, ?_, rfl, rfl, ?_, ?_, ?_, rfl, rfl⟩
  · simp [modelConfigPath, modelPathRequest, createChatMessage] at h ⊢
    simp [h]
  · intro hc
    rcases hc with hc | hc <;> simp [llmAnswerContent, hc]
  · intro c rest hc
    simp [llmAnswerContent, hc]
  · simp [modelConfigPath, modelPathRequest, createChatMessage] at h ⊢
    simp [h]

/-- C8 at a concrete input: one active model config, upstream 200 with one
choice "hello". -/
theorem C8_llm_success_reply_witness :
    ∃ p : SuccessPayload,
      (modelConfigPath c8_store c8_session c8_config "hi" c8_llm).1 = .success p
      ∧ p.assistant_message.role = "assistant"
      ∧ p.assistant_message.content = llmAnswerContent ⟨some ["hello"], some "id1"⟩
      ∧ ((⟨some ["hello"], some "id1"⟩ : LlmBody).choices = none
          ∨ (⟨some ["hello"], some "id1"⟩ : LlmBody).choices = some [] →
         llmAnswerContent ⟨some ["hello"], some "id1"⟩ = "")
      ∧ (∀ c rest, (⟨some ["hello"], some "id1"⟩ : LlmBody).choices = some (c :: rest) →
         llmAnswerContent ⟨some ["hello"], some "id1"⟩ = c)
      ∧ p.assistant_message ∈ (modelConfigPath c8_store c8_session c8_config "hi" c8_llm).2.chat_messages
      ∧ p.user_message.content = "hi"
      ∧ p.used_model = c8_config.name :=
  C8_llm_success_reply c8_store c8_session c8_config "hi" c8_llm
    ⟨some ["hello"], some "id1"⟩ rfl
